import Mathlib

set_option maxHeartbeats 1000000

/-!
Shallow embedding of the workflow-monitor sources
(`workflow_monitor/db.py`, `workflow_monitor/display.py`,
`workflow_monitor/htcondor_poll.py`).

Timestamps and sequence numbers are modelled as `Int`; the wall clock
(`datetime.now().timestamp()` in Python) is threaded as an explicit `now`
argument at every place the source samples it.  Python truthiness on an
optional numeric field (`if self.start_time:`) is modelled by `optTruthy`,
which is false both for `none` and for a zero value, exactly as in Python.
Fractions (`progress_pct`) are modelled over `ℚ`.
-/

/-- Python truthiness of an optional numeric value: `None` and `0` are falsy. -/
def optTruthy : Option Int → Bool
  | none => false
  | some t => t != 0

-- ── db.py : state helpers ────────────────────────────────────────────────────

/-- `_STATE_MAP` from db.py: raw pegasus jobstate to simplified display category. -/
def STATE_MAP : List (String × String) :=
  [("POST_SCRIPT_SUCCESS", "SUCCESS"),
   ("JOB_SUCCESS", "SUCCESS"),
   ("POST_SCRIPT_FAILURE", "FAILED"),
   ("JOB_FAILURE", "FAILED"),
   ("EXECUTE", "RUNNING"),
   ("SUBMIT", "QUEUED"),
   ("PRE_SCRIPT_STARTED", "PRE"),
   ("PRE_SCRIPT_SUCCESS", "PRE"),
   ("POST_SCRIPT_STARTED", "POST"),
   ("POST_SCRIPT_TERMINATED", "POST"),
   ("JOB_TERMINATED", "DONE"),
   ("JOB_HELD", "HELD")]

/-- `JOB_TYPE_LABEL` from db.py: job type labels for display. -/
def JOB_TYPE_LABEL : List (String × String) :=
  [("compute", "compute"),
   ("stage-in-tx", "stage-in"),
   ("stage-out-tx", "stage-out"),
   ("create-dir", "dir-create"),
   ("stage-worker", "stage-worker"),
   ("cleanup", "cleanup"),
   ("registration", "register")]

/-- `display_state` from db.py: `None` maps to UNSUBMITTED, otherwise
`_STATE_MAP.get(raw_state, raw_state)`. -/
def display_state : Option String → String
  | none => "UNSUBMITTED"
  | some s => (STATE_MAP.lookup s).getD s

/-- Two-digit zero padding, embedding the `%02d` format used by `fmt_duration`. -/
def pad2 (n : Nat) : String :=
  if n < 10 then "0" ++ toString n else toString n

/-- `fmt_duration` from db.py. -/
def fmt_duration : Option Int → String
  | none => "-"
  | some secs =>
    if secs < 0 then "-"
    else
      let s := secs.toNat
      if s < 60 then toString s ++ "s"
      else
        let m := s / 60
        let s2 := s % 60
        if m < 60 then toString m ++ "m" ++ pad2 s2 ++ "s"
        else toString (m / 60) ++ "h" ++ pad2 (m % 60) ++ "m" ++ pad2 s2 ++ "s"

-- ── db.py : data classes ─────────────────────────────────────────────────────

/-- `JobRecord` dataclass from db.py. -/
structure JobRecord where
  job_id : Int
  exec_job_id : String
  type_desc : String
  raw_state : Option String
  exitcode : Option Int
  site : Option String
  submit_time : Option Int
  start_time : Option Int
  end_time : Option Int
deriving DecidableEq, Repr

namespace JobRecord

/-- Property `disp_state`. -/
def disp_state (j : JobRecord) : String :=
  display_state j.raw_state

/-- Property `duration`.  The Python source samples `datetime.now()` inside the
property body each time it is evaluated; `now` is that sample.  The guards use
Python truthiness (`if self.start_time and self.end_time:`). -/
def duration (j : JobRecord) (now : Int) : Option Int :=
  if optTruthy j.start_time && optTruthy j.end_time then
    some (j.end_time.getD 0 - j.start_time.getD 0)
  else if optTruthy j.start_time && (j.disp_state == "RUNNING") then
    some (now - j.start_time.getD 0)
  else none

/-- Property `is_compute`. -/
def is_compute (j : JobRecord) : Bool :=
  j.type_desc == "compute"

/-- Property `short_name` (kept as-is by the source). -/
def short_name (j : JobRecord) : String :=
  j.exec_job_id

end JobRecord

/-- One row of `recent_events` (the dict produced by `get_recent_events`). -/
structure EventRow where
  exec_job_id : String
  type_desc : String
  state : String
  timestamp : Int
deriving DecidableEq, Repr

/-- `WorkflowSnapshot` dataclass from db.py. -/
structure WorkflowSnapshot where
  wf_state : String
  wf_status : Option Int
  wf_start : Option Int
  wf_end : Option Int
  jobs : List JobRecord
  recent_events : List EventRow
  poll_time : Int
deriving DecidableEq, Repr

namespace WorkflowSnapshot

/-- Property `is_running`. -/
def is_running (s : WorkflowSnapshot) : Bool :=
  s.wf_state == "WORKFLOW_STARTED"

/-- Property `is_complete`. -/
def is_complete (s : WorkflowSnapshot) : Bool :=
  s.wf_state == "WORKFLOW_TERMINATED"

/-- Property `succeeded`. -/
def succeeded (s : WorkflowSnapshot) : Bool :=
  s.is_complete && (s.wf_status == some 0)

/-- Property `failed`. -/
def failed (s : WorkflowSnapshot) : Bool :=
  s.is_complete && !(s.wf_status == some 0)

/-- Property `elapsed`: `wf_start` is tested with `is None`, `wf_end` with
Python truthiness; `now` is the `datetime.now()` sample taken at evaluation. -/
def elapsed (s : WorkflowSnapshot) (now : Int) : Option Int :=
  match s.wf_start with
  | none => none
  | some st => some ((if optTruthy s.wf_end then s.wf_end.getD 0 else now) - st)

/-- Method `total_jobs`. -/
def total_jobs (s : WorkflowSnapshot) : Nat :=
  s.jobs.length

/-- Method `done_count`: `sum(1 for j in self.jobs if j.disp_state == "SUCCESS")`. -/
def done_count (s : WorkflowSnapshot) : Nat :=
  s.jobs.countP (fun j => j.disp_state == "SUCCESS")

/-- Method `failed_count`. -/
def failed_count (s : WorkflowSnapshot) : Nat :=
  s.jobs.countP (fun j => j.disp_state == "FAILED")

/-- Method `running_count`. -/
def running_count (s : WorkflowSnapshot) : Nat :=
  s.jobs.countP (fun j => j.disp_state == "RUNNING")

/-- Method `queued_count`. -/
def queued_count (s : WorkflowSnapshot) : Nat :=
  s.jobs.countP (fun j =>
    j.disp_state == "QUEUED" || j.disp_state == "PRE" || j.disp_state == "POST")

/-- Method `compute_jobs`. -/
def compute_jobs (s : WorkflowSnapshot) : List JobRecord :=
  s.jobs.filter (fun j => j.is_compute)

/-- Method `infra_jobs`. -/
def infra_jobs (s : WorkflowSnapshot) : List JobRecord :=
  s.jobs.filter (fun j => !j.is_compute)

/-- Method `progress_pct`, over exact rationals. -/
def progress_pct (s : WorkflowSnapshot) : ℚ :=
  if s.total_jobs = 0 then 0
  else 100 * (s.done_count : ℚ) / (s.total_jobs : ℚ)

end WorkflowSnapshot

-- ── db.py : the stampede database model ──────────────────────────────────────

/-- One row of the `workflowstate` table (columns used by the queries). -/
structure WorkflowStateRow where
  state : String
  timestamp : Int
  status : Option Int
deriving DecidableEq, Repr

/-- One row of the `job` table (columns used by the queries). -/
structure JobRow where
  job_id : Int
  exec_job_id : String
  type_desc : String
deriving DecidableEq, Repr

/-- One row of the `job_instance` table (columns used by the queries). -/
structure JobInstanceRow where
  job_id : Int
  job_submit_seq : Int
  exitcode : Option Int
  site : Option String
deriving DecidableEq, Repr

/-- One row of the `jobstate` table.  Every query joins `jobstate` to
`job_instance` on `job_instance_id` solely to recover the owning `job_id`, so
the embedding carries that join result (`job_id`) on the row itself. -/
structure JobStateRow where
  job_id : Int
  state : String
  timestamp : Int
  jobstate_submit_seq : Int
deriving DecidableEq, Repr

/-- The readable contents of the stampede SQLite database. -/
structure Store where
  workflowstate : List WorkflowStateRow
  job : List JobRow
  job_instance : List JobInstanceRow
  jobstate : List JobStateRow
deriving DecidableEq, Repr

/-- Stable insertion of one element into a sorted list (helper for `sortBy`). -/
def insertBy {α : Type} (le : α → α → Bool) (x : α) : List α → List α
  | [] => [x]
  | y :: ys => if le x y then x :: y :: ys else y :: insertBy le x ys

/-- Stable insertion sort, embedding the SQL `ORDER BY` clauses. -/
def sortBy {α : Type} (le : α → α → Bool) : List α → List α
  | [] => []
  | x :: xs => insertBy le x (sortBy le xs)

/-- SQL `MIN(...)` aggregate over a column: `NULL` on the empty set. -/
def sqlMin : List Int → Option Int
  | [] => none
  | a :: as => some (as.foldl min a)

/-- SQL `MAX(...)` aggregate over a column: `NULL` on the empty set. -/
def sqlMax : List Int → Option Int
  | [] => none
  | a :: as => some (as.foldl max a)

namespace StampedeDB

/-- Result shape of `get_workflow_state` (the dict it returns). -/
structure WfStateRes where
  state : String
  timestamp : Option Int
  status : Option Int
deriving DecidableEq, Repr

/-- Pick the row maximal by `timestamp` (`ORDER BY timestamp DESC LIMIT 1`);
among equal timestamps the first stored row is kept. -/
def maxByTimestamp : List WorkflowStateRow → Option WorkflowStateRow
  | rows => rows.foldl (fun acc r =>
      match acc with
      | none => some r
      | some b => if r.timestamp > b.timestamp then some r else some b) none

/-- `get_workflow_state` from db.py. -/
def get_workflow_state (st : Store) : WfStateRes :=
  match maxByTimestamp st.workflowstate with
  | none => { state := "UNKNOWN", timestamp := none, status := none }
  | some row => { state := row.state, timestamp := some row.timestamp, status := row.status }

/-- `get_workflow_times` from db.py: scan rows ordered by timestamp ascending;
the last WORKFLOW_STARTED sets start, the last WORKFLOW_TERMINATED sets the
end bound. -/
def get_workflow_times (st : Store) : Option Int × Option Int :=
  (sortBy (fun a b => a.timestamp ≤ b.timestamp) st.workflowstate).foldl
    (fun p row =>
      if row.state == "WORKFLOW_STARTED" then (some row.timestamp, p.2)
      else if row.state == "WORKFLOW_TERMINATED" then (p.1, some row.timestamp)
      else p)
    (none, none)

/-- All `jobstate` rows belonging to one job (the correlated subquery join). -/
def rowsForJob (st : Store) (jid : Int) : List JobStateRow :=
  st.jobstate.filter (fun r => r.job_id == jid)

/-- Strict lexicographic order on (timestamp, jobstate_submit_seq). -/
def rowBelow (a b : JobStateRow) : Prop :=
  a.timestamp < b.timestamp ∨ (a.timestamp = b.timestamp ∧ a.jobstate_submit_seq < b.jobstate_submit_seq)

instance (a b : JobStateRow) : Decidable (rowBelow a b) := by
  unfold rowBelow; infer_instance

/-- The row selected by
`ORDER BY js.timestamp DESC, js.jobstate_submit_seq DESC LIMIT 1`:
the lexicographic maximum on (timestamp, sequence); among fully tied rows the
first stored row is kept. -/
def currentStateRow (rows : List JobStateRow) : Option JobStateRow :=
  rows.foldl (fun acc r =>
    match acc with
    | none => some r
    | some b => if rowBelow b r then some r else some b) none

/-- Timestamps of the SUBMIT rows of one job. -/
def submitTimesOf (st : Store) (jid : Int) : List Int :=
  ((rowsForJob st jid).filter (fun r => r.state == "SUBMIT")).map (fun r => r.timestamp)

/-- Timestamps of the EXECUTE rows of one job. -/
def execTimesOf (st : Store) (jid : Int) : List Int :=
  ((rowsForJob st jid).filter (fun r => r.state == "EXECUTE")).map (fun r => r.timestamp)

/-- Timestamps of the terminal rows of one job
(`state IN ('JOB_TERMINATED', 'JOB_SUCCESS', 'JOB_FAILURE')`). -/
def termTimesOf (st : Store) (jid : Int) : List Int :=
  ((rowsForJob st jid).filter (fun r =>
      r.state == "JOB_TERMINATED" || r.state == "JOB_SUCCESS" || r.state == "JOB_FAILURE")).map
    (fun r => r.timestamp)

/-- The `job_instance` row selected by `ORDER BY job_submit_seq DESC LIMIT 1`
for one job. -/
def latestInstance (st : Store) (jid : Int) : Option JobInstanceRow :=
  (st.job_instance.filter (fun r => r.job_id == jid)).foldl
    (fun acc r =>
      match acc with
      | none => some r
      | some b => if r.job_submit_seq > b.job_submit_seq then some r else some b) none

/-- Build the `JobRecord` for one `job` row, as the SELECT in `get_jobs` does. -/
def mkJobRecord (st : Store) (j : JobRow) : JobRecord :=
  { job_id := j.job_id
    exec_job_id := j.exec_job_id
    type_desc := j.type_desc
    raw_state := (currentStateRow (rowsForJob st j.job_id)).map (fun r => r.state)
    exitcode := (latestInstance st j.job_id).bind (fun r => r.exitcode)
    site := (latestInstance st j.job_id).bind (fun r => r.site)
    submit_time := sqlMin (submitTimesOf st j.job_id)
    start_time := sqlMin (execTimesOf st j.job_id)
    end_time := sqlMax (termTimesOf st j.job_id) }

/-- `get_jobs` from db.py: one record per `job` row, `ORDER BY j.job_id`. -/
def get_jobs (st : Store) : List JobRecord :=
  (sortBy (fun a b => a.job_id ≤ b.job_id) st.job).map (mkJobRecord st)

/-- A `jobstate` row joined to its `job` row, keeping the sort key. -/
structure JoinedEvent where
  exec_job_id : String
  type_desc : String
  state : String
  timestamp : Int
  jobstate_submit_seq : Int
deriving DecidableEq, Repr

/-- `get_recent_events` from db.py: join `jobstate` to `job`, order by
timestamp then sequence descending, keep the first `limit` rows. -/
def get_recent_events (st : Store) (limit : Nat) : List EventRow :=
  let joined := st.jobstate.filterMap (fun js =>
    (st.job.find? (fun j => j.job_id == js.job_id)).map (fun j =>
      JoinedEvent.mk j.exec_job_id j.type_desc js.state js.timestamp js.jobstate_submit_seq))
  let ordered := sortBy (fun a b =>
    a.timestamp > b.timestamp ||
      (a.timestamp == b.timestamp && a.jobstate_submit_seq ≥ b.jobstate_submit_seq)) joined
  (ordered.take limit).map (fun e => EventRow.mk e.exec_job_id e.type_desc e.state e.timestamp)

/-- `snapshot` from db.py.  `dbError` is true when any of the four reads hits a
transient `sqlite3.OperationalError`; the handler then substitutes the minimal
degraded values for all four results.  `now` is the `poll_time` default
(`datetime.now().timestamp()`). -/
def snapshot (st : Store) (dbError : Bool) (now : Int) : WorkflowSnapshot :=
  let r :=
    if dbError then
      (WfStateRes.mk "UNKNOWN" none none, ((none : Option Int), (none : Option Int)),
        ([] : List JobRecord), ([] : List EventRow))
    else
      (get_workflow_state st, get_workflow_times st, get_jobs st, get_recent_events st 20)
  { wf_state := r.1.state
    wf_status := r.1.status
    wf_start := r.2.1.1
    wf_end := r.2.1.2
    jobs := r.2.2.1
    recent_events := r.2.2.2
    poll_time := now }

/-- A sequence of poll cycles: each cycle sees the store contents at that
instant, whether the read errored, and its wall-clock capture instant, and
produces the published snapshot of that cycle. -/
def pollCycles : List (Store × Bool × Int) → List WorkflowSnapshot
  | cycles => cycles.map (fun c => snapshot c.1 c.2.1 c.2.2)

end StampedeDB

-- ── htcondor_poll.py ─────────────────────────────────────────────────────────

/-- A job ClassAd as returned by the queue: the fields this code reads.
`dagNodeName` is `""` when the ad has no DAGNodeName key (`cj.get(..., "")`);
`jobStatus` is `none` when the ad has no JobStatus key. -/
structure CondorAd where
  dagNodeName : String
  jobStatus : Option Int
deriving DecidableEq, Repr

/-- `JOB_STATUS` from htcondor_poll.py. -/
def JOB_STATUS : List (Int × String) :=
  [(1, "Idle"), (2, "Running"), (3, "Removed"), (4, "Completed"),
   (5, "Held"), (6, "TransferOutput"), (7, "Suspended")]

/-- `format_job_status` from htcondor_poll.py: unknown codes render as their
literal value; a missing (`None`) code renders as the string `None` (the
`int(None)` conversion raises and the handler falls back to `str(None)`). -/
def format_job_status : Option Int → String
  | none => "None"
  | some c => (JOB_STATUS.lookup c).getD (toString c)

/-- Outcome of trying one Python bindings module (`htcondor` / `htcondor2`):
the import raises ImportError, or the schedd query raises (any transport,
authentication or timeout error — swallowed by `except Exception: continue`),
or the query returns a list of ads. -/
inductive ModuleOutcome where
  | importFails : ModuleOutcome
  | queryFails : ModuleOutcome
  | querySucceeds : List CondorAd → ModuleOutcome
deriving DecidableEq, Repr

/-- What `result.stdout` of `condor_q -json` parses to. -/
inductive SubprocStdout where
  | blank : SubprocStdout
  | invalidJson : SubprocStdout
  | jsonNonList : SubprocStdout
  | jsonList : List CondorAd → SubprocStdout
deriving DecidableEq, Repr

/-- Outcome of the `condor_q -json` subprocess run: timeout, missing
executable, or completion with a return code and stdout. -/
inductive SubprocOutcome where
  | timeoutExpired : SubprocOutcome
  | fileNotFound : SubprocOutcome
  | completed : Int → SubprocStdout → SubprocOutcome
deriving DecidableEq, Repr

/-- The external world as seen by one `query_queue` call: the outcomes of the
two bindings modules tried in order, and of the subprocess fallback. -/
structure CondorEnv where
  htcondorMod : ModuleOutcome
  htcondor2Mod : ModuleOutcome
  subproc : SubprocOutcome
deriving DecidableEq, Repr

/-- What one iteration of the module loop in `_try_python_bindings`
contributes: `none` means the loop continues to the next module. -/
def moduleResult : ModuleOutcome → Option (List CondorAd)
  | .importFails => none
  | .queryFails => none
  | .querySucceeds jobs => some jobs

/-- `_try_python_bindings` from htcondor_poll.py: try `htcondor`, then
`htcondor2`; return `None` when neither yields a result. -/
def try_python_bindings (env : CondorEnv) : Option (List CondorAd) :=
  match moduleResult env.htcondorMod with
  | some r => some r
  | none => moduleResult env.htcondor2Mod

/-- `_query_via_subprocess` from htcondor_poll.py: timeout, missing
`condor_q`, and JSON decode errors are caught and yield `[]`; a nonzero exit
code, blank output, or a non-list JSON document also yield `[]`. -/
def query_via_subprocess : SubprocOutcome → List CondorAd
  | .timeoutExpired => []
  | .fileNotFound => []
  | .completed rc out =>
    if rc ≠ 0 then []
    else
      match out with
      | .blank => []
      | .invalidJson => []
      | .jsonNonList => []
      | .jsonList jobs => jobs

/-- `query_queue` from htcondor_poll.py.  The filter expression, schedd name,
collector host and credential paths configure the external call but do not
change the control flow over its outcome, which `env` models. -/
def query_queue (constraint schedd_name collector_host token_path
    cert_path key_path password_file : Option String) (env : CondorEnv) :
    List CondorAd :=
  match try_python_bindings env with
  | some r => r
  | none => query_via_subprocess env.subproc

/-- A bindings-module attempt that contributes nothing: the import failed or
the query raised. -/
def moduleFailed : ModuleOutcome → Prop
  | .importFails => True
  | .queryFails => True
  | .querySucceeds _ => False

/-- A subprocess run that yields no parsed job list: timeout, missing
executable, nonzero exit, blank or malformed or non-list output. -/
def subprocFailed : SubprocOutcome → Prop
  | .timeoutExpired => True
  | .fileNotFound => True
  | .completed rc out =>
    rc ≠ 0 ∨ out = .blank ∨ out = .invalidJson ∨ out = .jsonNonList

-- ── display.py : job table merge ─────────────────────────────────────────────

/-- One rendered row of the job table (the text of each cell; styling is
presentation only and not modelled). -/
structure JobTableRow where
  name : String
  typeLabel : String
  state : String
  exitText : String
  durationText : String
  live : String
deriving DecidableEq, Repr

/-- The condor lookup built at the top of `_make_job_table`: dict insertion
keyed by `DAGNodeName`, skipping ads whose key is empty; a later ad with the
same key overwrites an earlier one, so lookup returns the last such ad. -/
def condorMapLookup (condor_jobs : List CondorAd) (name : String) : Option CondorAd :=
  (condor_jobs.filter (fun cj => cj.dagNodeName != "" && cj.dagNodeName == name)).getLast?

/-- One data row of `_make_job_table` for one job. -/
def mkJobTableRow (condor_jobs : List CondorAd) (now : Int) (job : JobRecord) :
    JobTableRow :=
  { name := job.short_name
    typeLabel := (JOB_TYPE_LABEL.lookup job.type_desc).getD job.type_desc
    state := job.disp_state
    exitText := match job.exitcode with
      | none => "-"
      | some c => toString c
    durationText := fmt_duration (job.duration now)
    live := match condorMapLookup condor_jobs job.exec_job_id with
      | none => ""
      | some cj => format_job_status cj.jobStatus }

/-- `_make_job_table` from display.py, as the list of rendered rows: compute
jobs only unless `show_all`; a placeholder row when there are none. -/
def make_job_table (snap : WorkflowSnapshot) (show_all : Bool)
    (condor_jobs : List CondorAd) (now : Int) : List JobTableRow :=
  let jobs_to_show := if show_all then snap.jobs else snap.compute_jobs
  let rows := jobs_to_show.map (mkJobTableRow condor_jobs now)
  if jobs_to_show.isEmpty then
    [{ name := "(no jobs yet)", typeLabel := "", state := "", exitText := "",
       durationText := "", live := "" }]
  else rows

-- ── display.py : monitor loop ────────────────────────────────────────────────

/-- The continuation test of `run_monitor`:
`snap.is_complete and not snap.is_running`. -/
def terminalCheck (s : WorkflowSnapshot) : Bool :=
  s.is_complete && !s.is_running

/-- The `while True` loop of `run_monitor`, driven by the sequence of
snapshots successive `_refresh()` calls produce (`refresh k` is the snapshot
of the k-th refresh).  Returns the list of published snapshots when the loop
breaks; `none` when the fuel runs out before it does (modelling an infinite
loop).  On a terminal snapshot the loop performs exactly one more delayed
refresh, publishes it, and breaks. -/
def runMonitorLoop (refresh : Nat → WorkflowSnapshot) :
    Nat → Nat → Option (List WorkflowSnapshot)
  | _, 0 => none
  | k, fuel + 1 =>
    if terminalCheck (refresh k) then
      some [refresh k, refresh (k + 1)]
    else
      (runMonitorLoop refresh (k + 1) fuel).map (fun rest => refresh k :: rest)

-- ── Concrete sample data ─────────────────────────────────────────────────────

/-- A compute job whose latest state is JOB_SUCCESS. -/
def sampleJobSuccess : JobRecord :=
  { job_id := 1, exec_job_id := "analyze_ID0000001", type_desc := "compute",
    raw_state := some "JOB_SUCCESS", exitcode := some 0, site := some "condorpool",
    submit_time := some 1, start_time := some 2, end_time := some 10 }

/-- A compute job whose latest state is EXECUTE (in flight). -/
def sampleJobRunning : JobRecord :=
  { job_id := 2, exec_job_id := "render_ID0000002", type_desc := "compute",
    raw_state := some "EXECUTE", exitcode := none, site := some "condorpool",
    submit_time := some 3, start_time := some 5, end_time := none }

/-- A compute job whose latest state is JOB_TERMINATED (terminal but not yet
post-processed into SUCCESS). -/
def sampleJobTerminated : JobRecord :=
  { job_id := 3, exec_job_id := "merge_ID0000003", type_desc := "compute",
    raw_state := some "JOB_TERMINATED", exitcode := some 0, site := some "condorpool",
    submit_time := some 2, start_time := some 4, end_time := some 8 }

/-- A running workflow snapshot over the two sample jobs. -/
def sampleSnap : WorkflowSnapshot :=
  { wf_state := "WORKFLOW_STARTED", wf_status := none, wf_start := some 0,
    wf_end := none, jobs := [sampleJobSuccess, sampleJobRunning],
    recent_events := [], poll_time := 100 }

/-- `sampleSnap` with `sampleJobTerminated` appended to the job list. -/
def sampleSnapPlus : WorkflowSnapshot :=
  { sampleSnap with jobs := sampleSnap.jobs ++ [sampleJobTerminated] }

/-- A finished job: truthy start and end times. -/
def sampleJobFinished : JobRecord :=
  { job_id := 4, exec_job_id := "stage_ID0000004", type_desc := "stage-in-tx",
    raw_state := some "JOB_SUCCESS", exitcode := some 0, site := none,
    submit_time := some 1, start_time := some 5, end_time := some 9 }

/-- A store holding one job with EXECUTE rows at times 5 and 12 and terminal
rows at times 20 and 35. -/
def sampleStoreTimes : Store :=
  { workflowstate := [{ state := "WORKFLOW_STARTED", timestamp := 0, status := none }]
    job := [{ job_id := 1, exec_job_id := "analyze_ID0000001", type_desc := "compute" }]
    job_instance := [{ job_id := 1, job_submit_seq := 1, exitcode := some 0, site := none }]
    jobstate :=
      [{ job_id := 1, state := "SUBMIT", timestamp := 0, jobstate_submit_seq := 1 },
       { job_id := 1, state := "EXECUTE", timestamp := 5, jobstate_submit_seq := 2 },
       { job_id := 1, state := "EXECUTE", timestamp := 12, jobstate_submit_seq := 3 },
       { job_id := 1, state := "JOB_TERMINATED", timestamp := 20, jobstate_submit_seq := 4 },
       { job_id := 1, state := "JOB_SUCCESS", timestamp := 35, jobstate_submit_seq := 5 }] }

/-- The job record `get_jobs` produces for the single job of
`sampleStoreTimes`. -/
def sampleTimesJob : JobRecord :=
  StampedeDB.mkJobRecord sampleStoreTimes
    { job_id := 1, exec_job_id := "analyze_ID0000001", type_desc := "compute" }

/-- Two transition rows with the same timestamp and different sequence
numbers; the higher sequence number carries JOB_SUCCESS. -/
def tieRowHigh : JobStateRow :=
  { job_id := 1, state := "JOB_SUCCESS", timestamp := 10, jobstate_submit_seq := 5 }

/-- The lower-sequence row of the tie. -/
def tieRowLow : JobStateRow :=
  { job_id := 1, state := "EXECUTE", timestamp := 10, jobstate_submit_seq := 4 }

/-- A store whose jobstate log holds the tied rows with the high-sequence row
appended first. -/
def sampleStoreTie : Store :=
  { workflowstate := []
    job := [{ job_id := 1, exec_job_id := "analyze_ID0000001", type_desc := "compute" }]
    job_instance := [{ job_id := 1, job_submit_seq := 1, exitcode := none, site := none }]
    jobstate := [tieRowHigh, tieRowLow] }

/-- The refresh sequence of a monitored run that turns terminal on cycle 1. -/
def sampleRefresh (i : Nat) : WorkflowSnapshot :=
  if i < 1 then
    { wf_state := "WORKFLOW_STARTED", wf_status := none, wf_start := some 0,
      wf_end := none, jobs := [], recent_events := [], poll_time := 0 }
  else
    { wf_state := "WORKFLOW_TERMINATED", wf_status := some 0, wf_start := some 0,
      wf_end := some 9, jobs := [], recent_events := [], poll_time := 9 }

/-- An external-queue environment in which every stage fails: the first
bindings module is missing, the second raises during the query, and the
subprocess exits nonzero with malformed output. -/
def sampleFailEnv : CondorEnv :=
  { htcondorMod := .importFails, htcondor2Mod := .queryFails,
    subproc := .completed 1 .invalidJson }

/-- A live-queue ad whose DAGNodeName matches no sample job. -/
def sampleForeignAd : CondorAd :=
  { dagNodeName := "other_ID0009999", jobStatus := some 2 }

-- ── Helper lemmas about the SQL aggregate embeddings ─────────────────────────

lemma foldl_min_spec (as : List Int) : ∀ a : Int,
    (as.foldl min a = a ∨ as.foldl min a ∈ as) ∧ as.foldl min a ≤ a ∧
      ∀ t ∈ as, as.foldl min a ≤ t := by
  induction as with
  | nil => intro a; exact ⟨Or.inl rfl, le_refl a, by simp⟩
  | cons x xs ih =>
    intro a
    have hfold : (x :: xs).foldl min a = xs.foldl min (min a x) := by
      simp [List.foldl_cons]
    obtain ⟨hmem, hle, hall⟩ := ih (min a x)
    refine ⟨?_, ?_, ?_⟩
    · rcases hmem with h | h
      · rcases min_choice a x with hc | hc
        · exact Or.inl (by rw [hfold, h, hc])
        · exact Or.inr (by rw [hfold, h, hc]; exact List.mem_cons_self x xs)
      · exact Or.inr (by rw [hfold]; exact List.mem_cons_of_mem x h)
    · rw [hfold]; exact le_trans hle (min_le_left a x)
    · intro t ht
      rcases List.mem_cons.mp ht with rfl | ht
      · rw [hfold]; exact le_trans hle (min_le_right a t)
      · rw [hfold]; exact hall t ht

lemma foldl_max_spec (as : List Int) : ∀ a : Int,
    (as.foldl max a = a ∨ as.foldl max a ∈ as) ∧ a ≤ as.foldl max a ∧
      ∀ t ∈ as, t ≤ as.foldl max a := by
  induction as with
  | nil => intro a; exact ⟨Or.inl rfl, le_refl a, by simp⟩
  | cons x xs ih =>
    intro a
    have hfold : (x :: xs).foldl max a = xs.foldl max (max a x) := by
      simp [List.foldl_cons]
    obtain ⟨hmem, hle, hall⟩ := ih (max a x)
    refine ⟨?_, ?_, ?_⟩
    · rcases hmem with h | h
      · rcases max_choice a x with hc | hc
        · exact Or.inl (by rw [hfold, h, hc])
        · exact Or.inr (by rw [hfold, h, hc]; exact List.mem_cons_self x xs)
      · exact Or.inr (by rw [hfold]; exact List.mem_cons_of_mem x h)
    · rw [hfold]; exact le_trans (le_max_left a x) hle
    · intro t ht
      rcases List.mem_cons.mp ht with rfl | ht
      · rw [hfold]; exact le_trans (le_max_right a t) hle
      · rw [hfold]; exact hall t ht

lemma sqlMin_spec (l : List Int) (h : l ≠ []) :
    ∃ m, sqlMin l = some m ∧ m ∈ l ∧ ∀ t ∈ l, m ≤ t := by
  match l with
  | [] => exact absurd rfl h
  | a :: as =>
    obtain ⟨hmem, hle, hall⟩ := foldl_min_spec as a
    refine ⟨as.foldl min a, rfl, ?_, ?_⟩
    · rcases hmem with h | h
      · rw [h]; exact List.mem_cons_self a as
      · exact List.mem_cons_of_mem a h
    · intro t ht
      rcases List.mem_cons.mp ht with rfl | ht
      · exact hle
      · exact hall t ht

lemma sqlMax_spec (l : List Int) (h : l ≠ []) :
    ∃ m, sqlMax l = some m ∧ m ∈ l ∧ ∀ t ∈ l, t ≤ m := by
  match l with
  | [] => exact absurd rfl h
  | a :: as =>
    obtain ⟨hmem, hle, hall⟩ := foldl_max_spec as a
    refine ⟨as.foldl max a, rfl, ?_, ?_⟩
    · rcases hmem with h | h
      · rw [h]; exact List.mem_cons_self a as
      · exact List.mem_cons_of_mem a h
    · intro t ht
      rcases List.mem_cons.mp ht with rfl | ht
      · exact hle
      · exact hall t ht

lemma sqlMin_nil_iff (l : List Int) : sqlMin l = none ↔ l = [] := by
  cases l <;> simp [sqlMin]

lemma sqlMax_nil_iff (l : List Int) : sqlMax l = none ↔ l = [] := by
  cases l <;> simp [sqlMax]

-- ── Helper lemmas about the latest-row selection ─────────────────────────────

namespace StampedeDB

lemma rowBelow_irrefl (a : JobStateRow) : ¬ rowBelow a a := by
  unfold rowBelow; omega

lemma rowBelow_asymm {a b : JobStateRow} (h : rowBelow a b) : ¬ rowBelow b a := by
  unfold rowBelow at *; omega

lemma currentStateRow_fold_some (r : JobStateRow) :
    ∀ (rows : List JobStateRow) (b : JobStateRow),
      (∀ x ∈ rows, x = r ∨ rowBelow x r) →
      (b = r ∨ (rowBelow b r ∧ r ∈ rows)) →
      rows.foldl (fun acc x =>
        match acc with
        | none => some x
        | some b2 => if rowBelow b2 x then some x else some b2) (some b) = some r := by
  intro rows
  induction rows with
  | nil =>
    intro b _ hb
    rcases hb with rfl | ⟨_, hr⟩
    · rfl
    · exact absurd hr (List.not_mem_nil r)
  | cons x xs ih =>
    intro b hall hb
    have hx : x = r ∨ rowBelow x r := hall x (List.mem_cons_self x xs)
    have hall' : ∀ y ∈ xs, y = r ∨ rowBelow y r := fun y hy =>
      hall y (List.mem_cons_of_mem x hy)
    rw [List.foldl_cons]
    show xs.foldl _ (if rowBelow b x then some x else some b) = some r
    rcases hb with hbeq | ⟨hbr, hrmem⟩
    · rw [hbeq]
      have hbx : ¬ rowBelow r x := by
        rcases hx with hxeq | hxr
        · rw [hxeq]; exact rowBelow_irrefl r
        · exact rowBelow_asymm hxr
      rw [if_neg hbx]
      exact ih r hall' (Or.inl rfl)
    · rcases hx with hxeq | hxr
      · have hbx : rowBelow b x := hxeq.symm ▸ hbr
        rw [if_pos hbx]
        exact ih x hall' (Or.inl hxeq)
      · have hrxs : r ∈ xs := by
          rcases List.mem_cons.mp hrmem with heq | h
          · exact absurd (heq ▸ hxr) (rowBelow_irrefl r)
          · exact h
        by_cases hbx : rowBelow b x
        · rw [if_pos hbx]; exact ih x hall' (Or.inr ⟨hxr, hrxs⟩)
        · rw [if_neg hbx]; exact ih b hall' (Or.inr ⟨hbr, hrxs⟩)

lemma currentStateRow_dominant (rows : List JobStateRow) (r : JobStateRow)
    (hmem : r ∈ rows) (hdom : ∀ x ∈ rows, x = r ∨ rowBelow x r) :
    currentStateRow rows = some r := by
  match rows with
  | [] => exact absurd hmem (List.not_mem_nil r)
  | y :: tl =>
    have hy : y = r ∨ rowBelow y r := hdom y (List.mem_cons_self y tl)
    have htl : ∀ x ∈ tl, x = r ∨ rowBelow x r := fun x hx =>
      hdom x (List.mem_cons_of_mem y hx)
    unfold currentStateRow
    rw [List.foldl_cons]
    show tl.foldl _ (some y) = some r
    rcases hy with rfl | hyr
    · exact currentStateRow_fold_some y tl y htl (Or.inl rfl)
    · have hrtl : r ∈ tl := by
        rcases List.mem_cons.mp hmem with rfl | h
        · exact absurd hyr (rowBelow_irrefl r)
        · exact h
      exact currentStateRow_fold_some r tl y htl (Or.inr ⟨hyr, hrtl⟩)

end StampedeDB

-- ── Helper lemma about association-list lookup ───────────────────────────────

lemma lookup_eq_none_of_no_key (l : List (String × String)) (s : String)
    (h : ∀ p ∈ l, p.1 ≠ s) : l.lookup s = none := by
  induction l with
  | nil => rfl
  | cons p tl ih =>
    have hne : ¬ (s == p.1) = true := by
      simp only [beq_iff_eq]
      exact fun he => h p (List.mem_cons_self p tl) he.symm
    simp only [List.lookup, Bool.not_eq_true] at *
    rw [hne]
    exact ih (fun q hq => h q (List.mem_cons_of_mem p hq))

-- ── Claim theorems ───────────────────────────────────────────────────────────

/-- C4: `display_state` is total and returns a string for every input:
`display_state(null)` is UNSUBMITTED, each raw state of the mapping table maps
to its listed display state, and any raw state outside the table passes
through unchanged as its own display state. -/
theorem display_state_total_and_table (s : String)
    (h : ∀ p ∈ STATE_MAP, p.1 ≠ s) :
    display_state none = "UNSUBMITTED" ∧
    display_state (some "JOB_SUCCESS") = "SUCCESS" ∧
    display_state (some "POST_SCRIPT_SUCCESS") = "SUCCESS" ∧
    display_state (some "JOB_FAILURE") = "FAILED" ∧
    display_state (some "POST_SCRIPT_FAILURE") = "FAILED" ∧
    display_state (some "EXECUTE") = "RUNNING" ∧
    display_state (some "SUBMIT") = "QUEUED" ∧
    display_state (some "PRE_SCRIPT_STARTED") = "PRE" ∧
    display_state (some "PRE_SCRIPT_SUCCESS") = "PRE" ∧
    display_state (some "POST_SCRIPT_STARTED") = "POST" ∧
    display_state (some "POST_SCRIPT_TERMINATED") = "POST" ∧
    display_state (some "JOB_TERMINATED") = "DONE" ∧
    display_state (some "JOB_HELD") = "HELD" ∧
    display_state (some s) = s := by
  refine ⟨rfl, rfl, rfl, rfl, rfl, rfl, rfl, rfl, rfl, rfl, rfl, rfl, rfl, ?_⟩
  show (STATE_MAP.lookup s).getD s = s
  rw [lookup_eq_none_of_no_key STATE_MAP s h]
  rfl

/-- C4 witness: MONITORD_STARTED is not a key of the table and passes through
unchanged. -/
theorem display_state_total_and_table_witness :
    (∀ p ∈ STATE_MAP, p.1 ≠ "MONITORD_STARTED") ∧
    display_state (some "MONITORD_STARTED") = "MONITORD_STARTED" := by
  have h : ∀ p ∈ STATE_MAP, p.1 ≠ "MONITORD_STARTED" := by decide
  exact ⟨h,
    (display_state_total_and_table "MONITORD_STARTED" h).2.2.2.2.2.2.2.2.2.2.2.2.2⟩

/-- C8: `progress_pct` is 100·done/total for a nonempty job list, exactly 0
for an empty one (no division by zero), and always lies in [0, 100]. -/
theorem progress_pct_safe (s : WorkflowSnapshot) :
    (s.total_jobs = 0 → s.progress_pct = 0) ∧
    (s.total_jobs ≠ 0 →
      s.progress_pct = 100 * (s.done_count : ℚ) / (s.total_jobs : ℚ)) ∧
    0 ≤ s.progress_pct ∧ s.progress_pct ≤ 100 := by
  have hd : s.done_count ≤ s.total_jobs := List.countP_le_length _
  refine ⟨fun h => ?_, fun h => ?_, ?_, ?_⟩
  · simp [WorkflowSnapshot.progress_pct, h]
  · simp [WorkflowSnapshot.progress_pct, h]
  · unfold WorkflowSnapshot.progress_pct
    split
    · exact le_refl 0
    · positivity
  · unfold WorkflowSnapshot.progress_pct
    split
    · norm_num
    · rename_i h
      have ht : (0 : ℚ) < (s.total_jobs : ℚ) := by
        exact_mod_cast Nat.pos_of_ne_zero h
      rw [div_le_iff₀ ht]
      have hdq : (s.done_count : ℚ) ≤ (s.total_jobs : ℚ) := by exact_mod_cast hd
      linarith

/-- C8 witness: on the two-job sample snapshot (one SUCCESS, one RUNNING) the
formula and the bounds hold. -/
theorem progress_pct_safe_witness :
    sampleSnap.total_jobs ≠ 0 ∧
    sampleSnap.progress_pct =
      100 * (sampleSnap.done_count : ℚ) / (sampleSnap.total_jobs : ℚ) ∧
    0 ≤ sampleSnap.progress_pct ∧ sampleSnap.progress_pct ≤ 100 := by
  have h : sampleSnap.total_jobs ≠ 0 := by decide
  exact ⟨h, (progress_pct_safe sampleSnap).2.1 h,
    (progress_pct_safe sampleSnap).2.2.1, (progress_pct_safe sampleSnap).2.2.2⟩

/-- C10: `done_count` counts exactly the jobs whose display state is SUCCESS;
a job whose latest raw state is JOB_TERMINATED displays as DONE, is not
counted, and contributes nothing to the progress numerator. -/
theorem done_count_only_success (s : WorkflowSnapshot) (j : JobRecord)
    (hterm : j.raw_state = some "JOB_TERMINATED") :
    s.done_count = (s.jobs.filter (fun x => x.disp_state == "SUCCESS")).length ∧
    j.disp_state = "DONE" ∧
    ∀ s2 : WorkflowSnapshot, s2.jobs = s.jobs ++ [j] →
      s2.done_count = s.done_count ∧
      s2.progress_pct = 100 * (s.done_count : ℚ) / ((s.total_jobs : ℚ) + 1) := by
  have hdone : j.disp_state = "DONE" := by
    show display_state j.raw_state = "DONE"
    rw [hterm]
    rfl
  have hfalse : (j.disp_state == "SUCCESS") = false := by
    rw [hdone]
    rfl
  refine ⟨List.countP_eq_length_filter _ _, hdone, ?_⟩
  intro s2 h2
  have hcnt : s2.done_count = s.done_count := by
    unfold WorkflowSnapshot.done_count
    rw [h2, List.countP_append]
    simp [List.countP_cons, hfalse]
  refine ⟨hcnt, ?_⟩
  have hlen : s2.total_jobs = s.total_jobs + 1 := by
    unfold WorkflowSnapshot.total_jobs
    rw [h2]
    simp
  have hne : s2.total_jobs ≠ 0 := by rw [hlen]; omega
  unfold WorkflowSnapshot.progress_pct
  rw [if_neg hne, hcnt, hlen]
  push_cast
  ring

/-- C10 witness: appending the JOB_TERMINATED sample job to the sample
snapshot leaves done_count and the progress numerator unchanged. -/
theorem done_count_only_success_witness :
    sampleJobTerminated.raw_state = some "JOB_TERMINATED" ∧
    sampleSnapPlus.jobs = sampleSnap.jobs ++ [sampleJobTerminated] ∧
    sampleSnapPlus.done_count = sampleSnap.done_count ∧
    sampleSnapPlus.progress_pct =
      100 * (sampleSnap.done_count : ℚ) / ((sampleSnap.total_jobs : ℚ) + 1) := by
  have happ :=
    (done_count_only_success sampleSnap sampleJobTerminated rfl).2.2 sampleSnapPlus rfl
  exact ⟨rfl, rfl, happ.1, happ.2⟩

/-- C9 counterexample: the derived duration of an in-flight RUNNING job, and
the workflow-level elapsed, re-sample the wall clock at each evaluation:
evaluating the same unchanged snapshot at instants 10 and 20 yields different
values, contradicting the claim that the values are identical. -/
theorem duration_not_capture_instant :
    sampleJobRunning.duration 10 = some 5 ∧
    sampleJobRunning.duration 20 = some 15 ∧
    sampleJobRunning.duration 10 ≠ sampleJobRunning.duration 20 ∧
    sampleSnap.elapsed 10 = some 10 ∧
    sampleSnap.elapsed 20 = some 20 ∧
    sampleSnap.elapsed 10 ≠ sampleSnap.elapsed 20 := by
  decide

/-- C9 amended: duration is independent of the evaluation instant when both
start and end times are recorded (truthy), but for an in-flight RUNNING job it
is computed from the wall clock sampled at evaluation time, `now - start`;
elapsed behaves the same way when the end bound is absent.  The snapshot
capture instant is not used. -/
theorem duration_uses_evaluation_clock (j : JobRecord) (s : WorkflowSnapshot)
    (t1 t2 st0 : Int) :
    (optTruthy j.start_time = true → optTruthy j.end_time = true →
      j.duration t1 = j.duration t2) ∧
    (optTruthy j.start_time = true → optTruthy j.end_time = false →
      j.disp_state = "RUNNING" →
      j.duration t1 = some (t1 - j.start_time.getD 0)) ∧
    (s.wf_start = some st0 → optTruthy s.wf_end = true →
      s.elapsed t1 = s.elapsed t2) ∧
    (s.wf_start = some st0 → optTruthy s.wf_end = false →
      s.elapsed t1 = some (t1 - st0)) := by
  refine ⟨fun h1 h2 => ?_, fun h1 h2 h3 => ?_, fun h1 h2 => ?_, fun h1 h2 => ?_⟩
  · simp [JobRecord.duration, h1, h2]
  · simp [JobRecord.duration, h1, h2, h3]
  · simp [WorkflowSnapshot.elapsed, h1, h2]
  · simp [WorkflowSnapshot.elapsed, h1, h2]

/-- C9 amended witness: a finished job is clock-independent; the RUNNING
sample job and the running sample snapshot take their value from the
evaluation instant. -/
theorem duration_uses_evaluation_clock_witness :
    (optTruthy sampleJobFinished.start_time = true ∧
      optTruthy sampleJobFinished.end_time = true ∧
      sampleJobFinished.duration 10 = sampleJobFinished.duration 20) ∧
    (optTruthy sampleJobRunning.start_time = true ∧
      optTruthy sampleJobRunning.end_time = false ∧
      sampleJobRunning.disp_state = "RUNNING" ∧
      sampleJobRunning.duration 10 = some (10 - sampleJobRunning.start_time.getD 0)) ∧
    (sampleSnap.wf_start = some 0 ∧ optTruthy sampleSnap.wf_end = false ∧
      sampleSnap.elapsed 10 = some (10 - 0)) := by
  refine ⟨⟨rfl, rfl,
      (duration_uses_evaluation_clock sampleJobFinished sampleSnap 10 20 0).1 rfl rfl⟩,
    ⟨rfl, rfl, rfl,
      (duration_uses_evaluation_clock sampleJobRunning sampleSnap 10 20 0).2.1 rfl rfl rfl⟩,
    ⟨rfl, rfl,
      (duration_uses_evaluation_clock sampleJobRunning sampleSnap 10 20 0).2.2.2 rfl rfl⟩⟩

/-- C2: for every job record produced by `get_jobs`, `submit_time` is the
minimum timestamp among that job's SUBMIT rows, `start_time` the minimum among
its EXECUTE rows, `end_time` the maximum among its terminal rows
(JOB_TERMINATED / JOB_SUCCESS / JOB_FAILURE); each field is `None` exactly
when the corresponding row set is empty. -/
theorem get_jobs_time_bounds (st : Store) (jr : JobRecord)
    (h : jr ∈ StampedeDB.get_jobs st) :
    (StampedeDB.submitTimesOf st jr.job_id = [] → jr.submit_time = none) ∧
    (StampedeDB.submitTimesOf st jr.job_id ≠ [] →
      ∃ m, jr.submit_time = some m ∧ m ∈ StampedeDB.submitTimesOf st jr.job_id ∧
        ∀ t ∈ StampedeDB.submitTimesOf st jr.job_id, m ≤ t) ∧
    (StampedeDB.execTimesOf st jr.job_id = [] → jr.start_time = none) ∧
    (StampedeDB.execTimesOf st jr.job_id ≠ [] →
      ∃ m, jr.start_time = some m ∧ m ∈ StampedeDB.execTimesOf st jr.job_id ∧
        ∀ t ∈ StampedeDB.execTimesOf st jr.job_id, m ≤ t) ∧
    (StampedeDB.termTimesOf st jr.job_id = [] → jr.end_time = none) ∧
    (StampedeDB.termTimesOf st jr.job_id ≠ [] →
      ∃ m, jr.end_time = some m ∧ m ∈ StampedeDB.termTimesOf st jr.job_id ∧
        ∀ t ∈ StampedeDB.termTimesOf st jr.job_id, t ≤ m) := by
  obtain ⟨jrow, hmem, rfl⟩ := List.mem_map.mp h
  refine ⟨fun he => ?_, fun hne => ?_, fun he => ?_, fun hne => ?_,
    fun he => ?_, fun hne => ?_⟩
  · exact (sqlMin_nil_iff _).mpr he
  · exact sqlMin_spec _ hne
  · exact (sqlMin_nil_iff _).mpr he
  · exact sqlMin_spec _ hne
  · exact (sqlMax_nil_iff _).mpr he
  · exact sqlMax_spec _ hne

/-- C2 witness: on the sample store, EXECUTE rows at times 5 and 12 give
`start_time = 5` and terminal rows at times 20 and 35 give `end_time = 35`. -/
theorem get_jobs_time_bounds_witness :
    sampleTimesJob ∈ StampedeDB.get_jobs sampleStoreTimes ∧
    StampedeDB.execTimesOf sampleStoreTimes sampleTimesJob.job_id = [5, 12] ∧
    StampedeDB.termTimesOf sampleStoreTimes sampleTimesJob.job_id = [20, 35] ∧
    sampleTimesJob.start_time = some 5 ∧
    sampleTimesJob.end_time = some 35 ∧
    (∃ m, sampleTimesJob.start_time = some m ∧
      m ∈ StampedeDB.execTimesOf sampleStoreTimes sampleTimesJob.job_id ∧
      ∀ t ∈ StampedeDB.execTimesOf sampleStoreTimes sampleTimesJob.job_id, m ≤ t) ∧
    ∃ m, sampleTimesJob.end_time = some m ∧
      m ∈ StampedeDB.termTimesOf sampleStoreTimes sampleTimesJob.job_id ∧
      ∀ t ∈ StampedeDB.termTimesOf sampleStoreTimes sampleTimesJob.job_id, t ≤ m := by
  have h : sampleTimesJob ∈ StampedeDB.get_jobs sampleStoreTimes := by decide
  have hc := get_jobs_time_bounds sampleStoreTimes sampleTimesJob h
  exact ⟨h, by decide, by decide, by decide, by decide,
    hc.2.2.2.1 (by decide), hc.2.2.2.2.2 (by decide)⟩

/-- C3: the row selected as a job's latest state is the lexicographic maximum
on (timestamp, sequence number): whenever one row strictly dominates every
other row of that job, it is selected, whatever the order the rows were
appended in; in particular for two rows tied on timestamp the higher sequence
number wins in either presentation order, and `get_jobs` reports the selected
row's state as the job's raw state. -/
theorem latest_row_tiebreak (st : Store) (jid : Int) (r : JobStateRow)
    (hmem : r ∈ StampedeDB.rowsForJob st jid)
    (hdom : ∀ x ∈ StampedeDB.rowsForJob st jid,
      x = r ∨ StampedeDB.rowBelow x r) :
    StampedeDB.currentStateRow (StampedeDB.rowsForJob st jid) = some r ∧
    (∀ jr ∈ StampedeDB.get_jobs st, jr.job_id = jid →
      jr.raw_state = some r.state) ∧
    ∀ r1 r2 : JobStateRow, r1.timestamp = r2.timestamp →
      r2.jobstate_submit_seq < r1.jobstate_submit_seq →
      StampedeDB.currentStateRow [r1, r2] = some r1 ∧
      StampedeDB.currentStateRow [r2, r1] = some r1 := by
  have hsel := StampedeDB.currentStateRow_dominant _ r hmem hdom
  refine ⟨hsel, ?_, ?_⟩
  · intro jr hjr hid
    obtain ⟨jrow, hjrow, rfl⟩ := List.mem_map.mp hjr
    show (StampedeDB.currentStateRow
      (StampedeDB.rowsForJob st (StampedeDB.mkJobRecord st jrow).job_id)).map
        (fun x => x.state) = some r.state
    have hid2 : (StampedeDB.mkJobRecord st jrow).job_id = jid := hid
    rw [hid2, hsel]
    rfl
  · intro r1 r2 hts hseq
    have hb : StampedeDB.rowBelow r2 r1 := Or.inr ⟨hts.symm, hseq⟩
    constructor
    · exact StampedeDB.currentStateRow_dominant [r1, r2] r1
        (List.mem_cons_self r1 [r2])
        (by
          intro x hx
          rcases List.mem_cons.mp hx with hx1 | hx2
          · exact Or.inl hx1
          · rcases List.mem_singleton.mp hx2 with hx2
            exact Or.inr (hx2 ▸ hb))
    · exact StampedeDB.currentStateRow_dominant [r2, r1] r1
        (List.mem_cons_of_mem r2 (List.mem_cons_self r1 []))
        (by
          intro x hx
          rcases List.mem_cons.mp hx with hx1 | hx2
          · exact Or.inr (hx1 ▸ hb)
          · rcases List.mem_singleton.mp hx2 with hx2
            exact Or.inl hx2)

/-- C3 witness: two rows tied at timestamp 10 with sequence numbers 5 and 4,
stored with the high-sequence row first; it wins, and `get_jobs` reports its
state (JOB_SUCCESS) as the job's current state. -/
theorem latest_row_tiebreak_witness :
    tieRowHigh ∈ StampedeDB.rowsForJob sampleStoreTie 1 ∧
    (∀ x ∈ StampedeDB.rowsForJob sampleStoreTie 1,
      x = tieRowHigh ∨ StampedeDB.rowBelow x tieRowHigh) ∧
    StampedeDB.currentStateRow (StampedeDB.rowsForJob sampleStoreTie 1) =
      some tieRowHigh ∧
    ∀ jr ∈ StampedeDB.get_jobs sampleStoreTie, jr.job_id = 1 →
      jr.raw_state = some "JOB_SUCCESS" := by
  have hmem : tieRowHigh ∈ StampedeDB.rowsForJob sampleStoreTie 1 := by decide
  have hdom : ∀ x ∈ StampedeDB.rowsForJob sampleStoreTie 1,
      x = tieRowHigh ∨ StampedeDB.rowBelow x tieRowHigh := by decide
  have hc := latest_row_tiebreak sampleStoreTie 1 tieRowHigh hmem hdom
  exact ⟨hmem, hdom, hc.1, hc.2.1⟩

/-- C1: when a poll hits a transient store access error, `snapshot` does not
raise; it returns the degraded snapshot (state UNKNOWN, no status, no time
bounds, empty job list, empty recent events).  A healthy poll after any
earlier cycle — errored or not — equals the single healthy read of the store
at that instant: the failed cycle leaves no residue. -/
theorem snapshot_degraded_and_residue_free (st1 st2 : Store) (n1 n2 : Int) :
    (StampedeDB.snapshot st1 true n1).wf_state = "UNKNOWN" ∧
    (StampedeDB.snapshot st1 true n1).wf_status = none ∧
    (StampedeDB.snapshot st1 true n1).wf_start = none ∧
    (StampedeDB.snapshot st1 true n1).wf_end = none ∧
    (StampedeDB.snapshot st1 true n1).jobs = [] ∧
    (StampedeDB.snapshot st1 true n1).recent_events = [] ∧
    ∀ e : Bool, StampedeDB.pollCycles [(st1, e, n1), (st2, false, n2)] =
      [StampedeDB.snapshot st1 e n1, StampedeDB.snapshot st2 false n2] := by
  exact ⟨rfl, rfl, rfl, rfl, rfl, rfl, fun e => rfl⟩

/-- C5 helper: shifted form of the loop run, for induction on the index of
the first terminal cycle. -/
lemma runMonitorLoop_from (refresh : Nat → WorkflowSnapshot) :
    ∀ (K k fuel : Nat),
      (∀ i, i < K → terminalCheck (refresh (k + i)) = false) →
      terminalCheck (refresh (k + K)) = true →
      K < fuel →
      runMonitorLoop refresh k fuel =
        some ((List.range (K + 2)).map (fun i => refresh (k + i))) := by
  intro K
  induction K with
  | zero =>
    intro k fuel _ hK hfuel
    match fuel, hfuel with
    | f + 1, _ =>
      unfold runMonitorLoop
      rw [show terminalCheck (refresh k) = true from by simpa using hK]
      simp [List.range_succ]
  | succ K ih =>
    intro k fuel hbefore hK hfuel
    match fuel, hfuel with
    | f + 1, hfuel =>
      unfold runMonitorLoop
      have h0 : terminalCheck (refresh k) = false := by
        simpa using hbefore 0 (Nat.succ_pos K)
      rw [h0]
      simp only [Bool.false_eq_true, if_false]
      have hrec := ih (k + 1) f
        (fun i hi => by
          have := hbefore (i + 1) (Nat.succ_lt_succ hi)
          rwa [show k + (i + 1) = k + 1 + i from by omega] at this)
        (by rwa [show k + (K + 1) = k + 1 + K from by omega] at hK)
        (Nat.lt_of_succ_lt_succ hfuel)
      rw [hrec]
      have hr : (List.range (K + 1 + 2)).map (fun i => refresh (k + i)) =
          refresh k :: (List.range (K + 2)).map (fun i => refresh (k + 1 + i)) := by
        have htail : (List.range (K + 2)).map ((fun i => refresh (k + i)) ∘ Nat.succ) =
            (List.range (K + 2)).map (fun i => refresh (k + 1 + i)) := by
          apply List.map_congr_left
          intro a _
          show refresh (k + (a + 1)) = refresh (k + 1 + a)
          congr 1
          omega
        rw [show K + 1 + 2 = (K + 2) + 1 from rfl, List.range_succ_eq_map,
          List.map_cons, List.map_map, htail]
        rfl
      rw [hr]
      rfl

/-- C5: if the refresh sequence first satisfies the terminal continuation
test on cycle K, the monitor loop publishes the snapshots of cycles 0..K+1 —
exactly one additional delayed re-poll after the terminal observation — and
halts; it does not loop forever on the terminal state (any fuel above K
suffices). -/
theorem monitor_one_extra_poll_then_halts (refresh : Nat → WorkflowSnapshot)
    (K fuel : Nat)
    (hbefore : ∀ i, i < K → terminalCheck (refresh i) = false)
    (hK : terminalCheck (refresh K) = true)
    (hfuel : K < fuel) :
    runMonitorLoop refresh 0 fuel = some ((List.range (K + 2)).map refresh) ∧
    ((List.range (K + 2)).map refresh).length = K + 2 := by
  have h := runMonitorLoop_from refresh K 0 fuel
    (fun i hi => by simpa using hbefore i hi)
    (by simpa using hK) hfuel
  constructor
  · rw [h]
    congr 1
    apply List.map_congr_left
    intro i _
    simp
  · simp

/-- C5 witness: the sample refresh sequence turns terminal on cycle 1; with
fuel 3 the loop publishes exactly the three snapshots of cycles 0, 1, 2 and
halts. -/
theorem monitor_one_extra_poll_then_halts_witness :
    (∀ i, i < 1 → terminalCheck (sampleRefresh i) = false) ∧
    terminalCheck (sampleRefresh 1) = true ∧
    1 < 3 ∧
    runMonitorLoop sampleRefresh 0 3 = some ((List.range 3).map sampleRefresh) ∧
    ((List.range 3).map sampleRefresh).length = 3 := by
  have hb : ∀ i, i < 1 → terminalCheck (sampleRefresh i) = false := by decide
  have hK : terminalCheck (sampleRefresh 1) = true := by decide
  have h := monitor_one_extra_poll_then_halts sampleRefresh 1 3 hb hK (by omega)
  exact ⟨hb, hK, by omega, h.1, h.2⟩

/-- C6 helper: a failing subprocess run parses to the empty list. -/
lemma query_via_subprocess_failed (sp : SubprocOutcome) (h : subprocFailed sp) :
    query_via_subprocess sp = [] := by
  cases sp with
  | timeoutExpired => rfl
  | fileNotFound => rfl
  | completed rc out =>
    simp only [subprocFailed] at h
    simp only [query_via_subprocess]
    rcases h with hrc | hout | hout | hout
    · rw [if_pos hrc]
    · subst hout
      by_cases h0 : rc ≠ 0
      · rw [if_pos h0]
      · rw [if_neg h0]
    · subst hout
      by_cases h0 : rc ≠ 0
      · rw [if_pos h0]
      · rw [if_neg h0]
    · subst hout
      by_cases h0 : rc ≠ 0
      · rw [if_pos h0]
      · rw [if_neg h0]

/-- C6: whatever the filter expression, schedd name, collector host and
credential paths, when both bindings modules fail (missing import or raised
query) and the subprocess fallback fails (timeout, missing executable,
nonzero exit, blank, malformed or non-list output), `query_queue` returns the
empty list — no failure escapes to the caller. -/
theorem query_queue_failures_yield_empty
    (constraint schedd_name collector_host token_path cert_path key_path
      password_file : Option String) (env : CondorEnv)
    (h1 : moduleFailed env.htcondorMod)
    (h2 : moduleFailed env.htcondor2Mod)
    (h3 : subprocFailed env.subproc) :
    query_queue constraint schedd_name collector_host token_path cert_path
      key_path password_file env = [] := by
  obtain ⟨m1, m2, sp⟩ := env
  cases m1 with
  | querySucceeds l => exact False.elim h1
  | importFails =>
    cases m2 with
    | querySucceeds l => exact False.elim h2
    | importFails => exact query_via_subprocess_failed sp h3
    | queryFails => exact query_via_subprocess_failed sp h3
  | queryFails =>
    cases m2 with
    | querySucceeds l => exact False.elim h2
    | importFails => exact query_via_subprocess_failed sp h3
    | queryFails => exact query_via_subprocess_failed sp h3

/-- C6 witness: with the first module missing, the second raising, and the
subprocess exiting nonzero with malformed output, the query returns the empty
list. -/
theorem query_queue_failures_yield_empty_witness :
    moduleFailed sampleFailEnv.htcondorMod ∧
    moduleFailed sampleFailEnv.htcondor2Mod ∧
    subprocFailed sampleFailEnv.subproc ∧
    query_queue none none none none none none none sampleFailEnv = [] := by
  have h1 : moduleFailed sampleFailEnv.htcondorMod := trivial
  have h2 : moduleFailed sampleFailEnv.htcondor2Mod := trivial
  have h3 : subprocFailed sampleFailEnv.subproc := Or.inl (by decide)
  exact ⟨h1, h2, h3,
    query_queue_failures_yield_empty none none none none none none none
      sampleFailEnv h1 h2 h3⟩

/-- C7: for a fixed snapshot, two live-queue lists with no job-name overlap
with the snapshot (including the empty list) produce identical per-job
display-state columns in the job table: the name-keyed merge never alters the
authoritative display state. -/
theorem merge_never_alters_display_state (snap : WorkflowSnapshot)
    (show_all : Bool) (l1 l2 : List CondorAd) (now : Int)
    (h1 : ∀ cj ∈ l1, ∀ j ∈ snap.jobs, cj.dagNodeName ≠ j.exec_job_id)
    (h2 : ∀ cj ∈ l2, ∀ j ∈ snap.jobs, cj.dagNodeName ≠ j.exec_job_id) :
    (make_job_table snap show_all l1 now).map (fun r => r.state) =
      (make_job_table snap show_all l2 now).map (fun r => r.state) := by
  unfold make_job_table
  by_cases he : (if show_all then snap.jobs else snap.compute_jobs).isEmpty
  · simp [he]
  · simp only [he, Bool.false_eq_true, if_false, List.map_map]
    apply List.map_congr_left
    intro j _
    rfl

/-- C7 witness: on the sample snapshot, the empty live list and a
non-overlapping one-entry live list give the same state column. -/
theorem merge_never_alters_display_state_witness :
    (∀ cj ∈ ([] : List CondorAd), ∀ j ∈ sampleSnap.jobs,
      cj.dagNodeName ≠ j.exec_job_id) ∧
    (∀ cj ∈ [sampleForeignAd], ∀ j ∈ sampleSnap.jobs,
      cj.dagNodeName ≠ j.exec_job_id) ∧
    (make_job_table sampleSnap false [] 100).map (fun r => r.state) =
      (make_job_table sampleSnap false [sampleForeignAd] 100).map
        (fun r => r.state) := by
  have h1 : ∀ cj ∈ ([] : List CondorAd), ∀ j ∈ sampleSnap.jobs,
      cj.dagNodeName ≠ j.exec_job_id := by decide
  have h2 : ∀ cj ∈ [sampleForeignAd], ∀ j ∈ sampleSnap.jobs,
      cj.dagNodeName ≠ j.exec_job_id := by decide
  exact ⟨h1, h2,
    merge_never_alters_display_state sampleSnap false [] [sampleForeignAd] 100 h1 h2⟩
